import Mathlib

/-!
Verification development for the AI trip-planner repository.

The embedding works at the level of `List Char` so that the Python string
operations used by the code (strip, splitlines, lowercase, regex scans)
can be modelled exactly and executably.  Strings appear only at the
boundary of concrete test inputs, via `String.data`.

Sources embedded:
- `src/utils/model_loader.py`: `_resolve_groq_model`, `load_llm`,
  the `DECOMMISSIONED` disallow-list and the Groq defaults.
- `src/streamlit_app.py`: `call_backend`, `extract_budget_lines`,
  `budget_totals_from_lines`, the Day Plan tab regex split, and the
  Weather tab line scan.
-/

namespace TripPlanner

/-! ### Python character classes and string helpers -/

/-- The Python whitespace class (the set matched by the regex class for
whitespace on `str`, and stripped by `str.strip()` with no argument):
0x09-0x0d, 0x1c-0x1f, space, 0x85, 0xa0, 0x1680, 0x2000-0x200a,
0x2028, 0x2029, 0x202f, 0x205f, 0x3000. -/
def pyIsSpace (c : Char) : Bool :=
  c = ' ' || c = '\t' || c = '\n' || c = '\r' || c.toNat = 0x0b || c.toNat = 0x0c ||
  (0x1c ≤ c.toNat && c.toNat ≤ 0x1f) || c.toNat = 0x85 || c.toNat = 0xa0 ||
  c.toNat = 0x1680 || (0x2000 ≤ c.toNat && c.toNat ≤ 0x200a) ||
  c.toNat = 0x2028 || c.toNat = 0x2029 || c.toNat = 0x202f || c.toNat = 0x205f ||
  c.toNat = 0x3000

/-- Python `str.strip()` with no argument: remove leading and trailing
whitespace. -/
def pyStrip (s : List Char) : List Char :=
  ((s.dropWhile pyIsSpace).reverse.dropWhile pyIsSpace).reverse

/-- Line boundaries recognised by Python `str.splitlines()`:
\n, \r (and the pair \r\n handled separately), 0x0b, 0x0c, 0x1c-0x1e,
0x85, 0x2028, 0x2029. -/
def isLineBreakChar (c : Char) : Bool :=
  c = '\n' || c = '\r' || c.toNat = 0x0b || c.toNat = 0x0c ||
  (0x1c ≤ c.toNat && c.toNat ≤ 0x1e) || c.toNat = 0x85 ||
  c.toNat = 0x2028 || c.toNat = 0x2029

/-- Worker for `pySplitlines`; `acc` holds the current line reversed. -/
def pySplitlinesAux : List Char → List Char → List (List Char)
  | acc, [] => if acc.isEmpty then [] else [acc.reverse]
  | acc, '\r' :: '\n' :: rest => acc.reverse :: pySplitlinesAux [] rest
  | acc, c :: rest =>
    if isLineBreakChar c then acc.reverse :: pySplitlinesAux [] rest
    else pySplitlinesAux (c :: acc) rest

/-- Python `str.splitlines()`: split at line boundaries, no trailing empty
line for a trailing terminator. -/
def pySplitlines (s : List Char) : List (List Char) :=
  pySplitlinesAux [] s

/-- Does `needle` occur at the very start of `hay`? -/
def leadsWith : List Char → List Char → Bool
  | [], _ => true
  | _ :: _, [] => false
  | a :: as, b :: bs => a = b && leadsWith as bs

/-- Does `needle` occur anywhere inside `hay` (contiguously)? -/
def hasSub (needle : List Char) : List Char → Bool
  | [] => leadsWith needle []
  | c :: rest => leadsWith needle (c :: rest) || hasSub needle rest

/-- ASCII lowercasing of a whole string, modelling the case-insensitive
regex flag on the ASCII tokens used by the code. -/
def lowerAll (s : List Char) : List Char :=
  s.map Char.toLower

/-! ### src/utils/model_loader.py -/

/-- The `DECOMMISSIONED` set of retired Groq model names. -/
def DECOMMISSIONED : List (List Char) :=
  [("deepseek-r1-distill-llama-70b").data,
   ("deepseek-r1-distill-llama-70b-q4_k_m").data]

/-- The `GROQ_DEFAULT` safe default model. -/
def GROQ_DEFAULT : List Char :=
  ("llama-3.1-8b-instant").data

/-- The `GROQ_ALLOWED_FALLBACKS` list (used only for an informational
print in the source). -/
def GROQ_ALLOWED_FALLBACKS : List (List Char) :=
  [("llama-3.1-70b-versatile").data,
   ("llama-3.2-90b-text-preview").data,
   ("mixtral-8x7b").data]

/-- Python `a or b` on a possibly-absent string `a`: `a` wins when it is
present and non-empty (truthy), otherwise `b`. -/
def pyOrStr (a : Option (List Char)) (b : List Char) : List Char :=
  match a with
  | none => b
  | some s => if s.isEmpty then b else s

/-- `ModelLoader._resolve_groq_model`: priority chain
env GROQ_MODEL, then config value, then `GROQ_DEFAULT`; the chosen value
is stripped, and a decommissioned result falls back to `GROQ_DEFAULT`.
The try/except around the config lookup is modelled by the `Option` argument. -/
def resolve_groq_model (envModel cfgModel : Option (List Char)) : List Char :=
  let model_name := pyStrip (pyOrStr envModel (pyOrStr cfgModel GROQ_DEFAULT))
  if model_name ∈ DECOMMISSIONED then GROQ_DEFAULT else model_name

/-- The environment variables read by `load_llm` and
`_resolve_groq_model`; `none` models an unset variable. -/
structure EnvVars where
  GROQ_API_KEY : Option (List Char)
  OPENAI_API_KEY : Option (List Char)
  GROQ_MODEL : Option (List Char)
  OPENAI_MODEL : Option (List Char)
deriving DecidableEq

/-- Errors raised by `load_llm`: `RuntimeError` for a missing API key
(the ConfigurationError of the spec), `ValueError` for an unsupported
provider. -/
inductive LoadError where
  | runtimeError (msg : List Char)
  | valueError (msg : List Char)
deriving DecidableEq

/-- The constructed client handle (`ChatGroq` / `ChatOpenAI`), carrying
the model name, the api key and the fixed timeout of 60 seconds.  The
float temperature 0.2 is a fixed constant in the source and is not
modelled. -/
inductive LLM where
  | chatGroq (model api_key : List Char) (timeout : Nat)
  | chatOpenAI (model api_key : List Char) (timeout : Nat)
deriving DecidableEq

/-- `ModelLoader.load_llm`, as a function of the provider tag, the
environment, and the two config model names (the config try/except is
modelled by the `Option` arguments).  `if not key` in Python is true for
both an unset and an empty value. -/
def load_llm (provider : List Char) (env : EnvVars)
    (cfgGroqModel cfgOpenaiModel : Option (List Char)) : Except LoadError LLM :=
  if provider = ("groq").data then
    match env.GROQ_API_KEY with
    | none => .error (.runtimeError ("GROQ_API_KEY is not set").data)
    | some k =>
      if k.isEmpty then .error (.runtimeError ("GROQ_API_KEY is not set").data)
      else .ok (.chatGroq (resolve_groq_model env.GROQ_MODEL cfgGroqModel) k 60)
  else if provider = ("openai").data then
    match env.OPENAI_API_KEY with
    | none => .error (.runtimeError ("OPENAI_API_KEY is not set").data)
    | some k =>
      if k.isEmpty then .error (.runtimeError ("OPENAI_API_KEY is not set").data)
      else
        let model_name :=
          match env.OPENAI_MODEL with
          | some m =>
            if m.isEmpty then
              match cfgOpenaiModel with
              | some c => c
              | none => ("gpt-4o-mini").data
            else m
          | none =>
            match cfgOpenaiModel with
            | some c => c
            | none => ("gpt-4o-mini").data
        .ok (.chatOpenAI model_name k 60)
  else .error (.valueError (("Unsupported model_provider: ").data ++ provider))

/-! ### src/streamlit_app.py : call_backend -/

/-- The outcome of the underlying HTTP POST in `call_backend`.
`exn msg` models a transport exception with message `str(e)`.
`http status jsonAnswer jsonErr text` models a received response:
`jsonAnswer = none` means `resp.json().get("answer", "")` raises (body
not a JSON object) with message `jsonErr`; `some none` means a JSON
object without an "answer" field; `some (some a)` means the field is
present with value `a`; `text` is `resp.text`. -/
inductive BackendResponse where
  | exn (msg : List Char)
  | http (status : Nat) (jsonAnswer : Option (Option (List Char)))
         (jsonErr : List Char) (text : List Char)
deriving DecidableEq

/-- `call_backend`: status 200 returns the answer field (default empty);
any other status returns the response text; every exception raised
inside the try block is caught and returned as a failure. -/
def call_backend : BackendResponse → Bool × List Char
  | .exn m => (false, m)
  | .http status jsonAnswer jsonErr text =>
    if status = 200 then
      match jsonAnswer with
      | none => (false, jsonErr)
      | some none => (true, [])
      | some (some a) => (true, a)
    else (false, text)

/-! ### src/streamlit_app.py : budget parsing -/

/-- One branch of the alternation regex used by `extract_budget_lines`:
the line case-insensitively contains "budget", "cost", a rupee sign,
a dollar sign, "INR" or "USD". -/
def budgetHit (ln : List Char) : Bool :=
  let low := lowerAll ln
  hasSub (("budget").data) low || hasSub (("cost").data) low ||
  hasSub (("₹").data) low || hasSub (("$").data) low ||
  hasSub (("inr").data) low || hasSub (("usd").data) low

/-- The list-comprehension filter inside `extract_budget_lines`. -/
def budgetHits : List (List Char) → List (List Char)
  | [] => []
  | ln :: rest => if budgetHit ln then ln :: budgetHits rest else budgetHits rest

/-- `extract_budget_lines`: the candidate lines, capped at the first 20. -/
def extract_budget_lines (md : List Char) : List (List Char) :=
  (budgetHits (pySplitlines md)).take 20

/-- Character class `[A-Za-z ]` of the category-name group. -/
def isNameChar (c : Char) : Bool :=
  c.isAlpha || c = ' '

/-- Character class `[\d,]` of the amount group (ASCII digits in this
model). -/
def isAmtChar (c : Char) : Bool :=
  c.isDigit || c = ','

/-- Try the regex `([A-Za-z ]+):\s*([₹$])?\s*([\d,]+)` anchored at the
start of `cs`; on success return (group 1, group 3).  Greedy matching of
each piece is exact here because no two adjacent character classes
overlap, so no backtracking can succeed where the maximal munch fails. -/
def tryBudgetAt (cs : List Char) : Option (List Char × List Char) :=
  let g1 := cs.takeWhile isNameChar
  let r1 := cs.dropWhile isNameChar
  if g1.isEmpty then none
  else
    match r1 with
    | ':' :: r2 =>
      let r3 := r2.dropWhile pyIsSpace
      let r4 :=
        match r3 with
        | c :: t => if c = '₹' || c = '$' then t else c :: t
        | [] => []
      let r5 := r4.dropWhile pyIsSpace
      let g3 := r5.takeWhile isAmtChar
      if g3.isEmpty then none else some (g1, g3)
    | _ => none

/-- `re.search` of the category/amount pattern on one line: leftmost
start position wins. -/
def searchBudget : List Char → Option (List Char × List Char)
  | [] => none
  | c :: rest =>
    match tryBudgetAt (c :: rest) with
    | some r => some r
    | none => searchBudget rest

/-- Numeric value of an ASCII digit string, as `float` computes it on
the comma-stripped group (the matched values are digit strings, so the
value is an exact natural number). -/
def digitsToNat (ds : List Char) : Nat :=
  ds.foldl (fun a c => a * 10 + (c.toNat - 48)) 0

/-- `float(m.group(3).replace(",", ""))`: `none` models the raised
`ValueError` when nothing is left after removing the commas. -/
def parseAmt (g3 : List Char) : Option Nat :=
  if (g3.filter (fun c => c ≠ ',')).isEmpty then none
  else some (digitsToNat (g3.filter (fun c => c ≠ ',')))

/-- An exception escaping `budget_totals_from_lines`. -/
inductive PyError where
  | valueError (msg : List Char)
deriving DecidableEq

/-- The `for ln in lines` loop of `budget_totals_from_lines`: collect
the (stripped name, amount) pairs, propagating the `float` failure. -/
def collectCats : List (List Char) → Except PyError (List (List Char × Nat))
  | [] => .ok []
  | ln :: rest =>
    match searchBudget ln with
    | none => collectCats rest
    | some (g1, g3) =>
      match parseAmt g3 with
      | none => .error (.valueError ("could not convert string to float").data)
      | some a =>
        match collectCats rest with
        | .error e => .error e
        | .ok cs => .ok ((pyStrip g1, a) :: cs)

/-- `budget_totals_from_lines`: `ok none` is the Python `None` ("no
data") outcome; `ok (some (total, cats))` is the `(total, cats)` result
with `total = sum(a for _, a in cats)`. -/
def budget_totals_from_lines (lines : List (List Char)) :
    Except PyError (Option (Nat × List (List Char × Nat))) :=
  match collectCats lines with
  | .error e => .error e
  | .ok cats =>
    if cats.isEmpty then .ok none
    else .ok (some ((cats.map Prod.snd).sum, cats))

/-- A line is amount-safe when its regex match (if any) has at least one
digit in the amount group, so that the `float` call cannot raise. -/
def lineAmountSafe (ln : List Char) : Bool :=
  match searchBudget ln with
  | some (_, g3) => g3.any Char.isDigit
  | none => true

/-! ### src/streamlit_app.py : Day Plan tab -/

/-- Try the regex `\n\s*Day\s*\d+[:：]` (case-insensitive) anchored at
the start of `cs`.  On success return the text captured by the group
`(Day\s*\d+[:：])` and the remainder after the match.  As for the budget
regex, maximal munch is exact because adjacent classes do not overlap. -/
def matchDayAt : List Char → Option (List Char × List Char)
  | '\n' :: rest =>
    let r1 := rest.dropWhile pyIsSpace
    match r1 with
    | d :: a :: y :: r2 =>
      if d.toLower = 'd' && a.toLower = 'a' && y.toLower = 'y' then
        let ws := r2.takeWhile pyIsSpace
        let r3 := r2.dropWhile pyIsSpace
        let ds := r3.takeWhile Char.isDigit
        let r4 := r3.dropWhile Char.isDigit
        if ds.isEmpty then none
        else
          match r4 with
          | c :: r5 =>
            if c = ':' || c = '：' then some (d :: a :: y :: (ws ++ ds ++ [c]), r5)
            else none
          | [] => none
      else none
    | _ => none
  | _ => none

/-- Fueled simultaneous `re.split` / `re.findall` scan for the day
pattern; each successful match consumes at least one character, so fuel
equal to the length of the text is always sufficient. -/
def dayScanF : Nat → List Char → List (List Char) × List (List Char)
  | _, [] => ([[]], [])
  | 0, c :: rest => ([c :: rest], [])
  | f + 1, c :: rest =>
    match matchDayAt (c :: rest) with
    | some (hdr, after) =>
      let r := dayScanF f after
      ([] :: r.1, hdr :: r.2)
    | none =>
      let r := dayScanF f rest
      match r with
      | (p :: ps, hs) => ((c :: p) :: ps, hs)
      | ([], hs) => ([[c]], hs)

/-- `days_split = re.split(r"\n\s*Day\s*\d+[:：]", answer_md, flags=re.I)`. -/
def daysSplitData (md : List Char) : List (List Char) :=
  (dayScanF md.length md).1

/-- `headers = re.findall(r"\n\s*(Day\s*\d+[:：])", answer_md, flags=re.I)`. -/
def dayHeadersData (md : List Char) : List (List Char) :=
  (dayScanF md.length md).2

/-- The Day Plan tab: when at least one header was found, the expandable
sections are the stripped headers paired with the pieces after the first
one; otherwise (`none`) the info notice is shown and the full plan
remains as the single piece of the split. -/
def dayPlanSections (md : List Char) :
    Option (List (List Char × List Char)) :=
  let hs := dayHeadersData md
  if 1 ≤ hs.length then
    some (List.zip (hs.map pyStrip) ((daysSplitData md).drop 1))
  else none

/-! ### src/streamlit_app.py : Weather tab -/

/-- `re.search(r"^\s*Weather", ln, re.I)`: the line starts with optional
whitespace followed by "weather" case-insensitively. -/
def matchWeatherStart (ln : List Char) : Bool :=
  leadsWith (("weather").data) (lowerAll (ln.dropWhile pyIsSpace))

/-- The Weather-tab loop: once a starting line is seen, every line is
appended (with a newline) and the loop breaks at the first blank line
(which is itself appended first). -/
def weatherScan (inw : Bool) (acc : List Char) : List (List Char) → List Char
  | [] => acc
  | ln :: rest =>
    let inw2 := inw || matchWeatherStart ln
    let acc2 := if inw2 then acc ++ ln ++ ['\n'] else acc
    if inw2 && (pyStrip ln).isEmpty then acc2 else weatherScan inw2 acc2 rest

/-- The raw `weather_chunk` accumulated by the loop. -/
def weatherChunkRaw (md : List Char) : List Char :=
  weatherScan false [] (pySplitlines md)

/-- What the Weather tab shows: the stripped chunk when non-empty,
otherwise (`none`) the "no explicit weather block found" notice. -/
def weatherTab (md : List Char) : Option (List Char) :=
  let c := pyStrip (weatherChunkRaw md)
  if c.isEmpty then none else some c

/-- Join lines back with a trailing newline each, as the loop fragment
`weather_chunk += ln + "\n"` does. -/
def joinNL : List (List Char) → List Char
  | [] => []
  | ln :: rest => ln ++ '\n' :: joinNL rest

/-- The prefix of `lines` up to and including the first blank line
(blank in the sense of Python `strip`). -/
def takeThroughBlank : List (List Char) → List (List Char)
  | [] => []
  | ln :: rest =>
    if (pyStrip ln).isEmpty then [ln] else ln :: takeThroughBlank rest

/-! ## Helper lemmas -/

theorem budgetHits_eq_filter (ls : List (List Char)) :
    budgetHits ls = ls.filter budgetHit := by
  induction ls with
  | nil => rfl
  | cons ln rest ih =>
    by_cases h : budgetHit ln <;> simp [budgetHits, List.filter_cons, h, ih]

theorem collectCats_of_none (lines : List (List Char))
    (h : ∀ ln ∈ lines, searchBudget ln = none) : collectCats lines = .ok [] := by
  induction lines with
  | nil => rfl
  | cons ln rest ih =>
    have h1 : searchBudget ln = none := h ln (by simp)
    have h2 : ∀ l ∈ rest, searchBudget l = none := fun l hl => h l (by simp [hl])
    simp [collectCats, h1, ih h2]

theorem listIsEmpty_true {α : Type _} {l : List α} (h : l.isEmpty = true) : l = [] := by
  cases l with
  | nil => rfl
  | cons a b => exact Bool.noConfusion h

theorem collectCats_length (lines : List (List Char)) (cats : List (List Char × Nat))
    (h : collectCats lines = .ok cats) :
    cats.length = (lines.filter (fun ln => (searchBudget ln).isSome)).length := by
  induction lines generalizing cats with
  | nil =>
    simp only [collectCats] at h
    cases h
    simp
  | cons ln rest ih =>
    simp only [collectCats] at h
    split at h
    · rename_i heq
      simp [List.filter_cons, heq, ih cats h]
    · rename_i g1 g3 heq
      split at h
      · cases h
      · rename_i a hp
        split at h
        · cases h
        · rename_i cs hc
          cases h
          simp [List.filter_cons, heq, ih cs hc]

theorem collectCats_safe (lines : List (List Char))
    (h : ∀ ln ∈ lines, lineAmountSafe ln = true) :
    ∃ cs, collectCats lines = .ok cs := by
  induction lines with
  | nil => exact ⟨[], rfl⟩
  | cons ln rest ih =>
    obtain ⟨cs, hcs⟩ := ih (fun l hl => h l (List.mem_cons_of_mem _ hl))
    have hln := h ln (List.mem_cons_self _ _)
    rw [lineAmountSafe] at hln
    cases hs : searchBudget ln with
    | none => exact ⟨cs, by simp [collectCats, hs, hcs]⟩
    | some pr =>
      obtain ⟨g1, g3⟩ := pr
      rw [hs] at hln
      obtain ⟨c, hcmem, hcdig⟩ := List.any_eq_true.mp hln
      have hcne : c ≠ ',' := by
        intro he
        rw [he] at hcdig
        exact absurd hcdig (by decide)
      cases hp : parseAmt g3 with
      | none =>
        exfalso
        unfold parseAmt at hp
        simp at hp
        exact hcne (hp c hcmem)
      | some a =>
        exact ⟨(pyStrip g1, a) :: cs, by simp [collectCats, hs, hp, hcs]⟩

/-! ## Claim theorems -/

/-- Claim C4: if zero (category, amount) pairs are matched in the input
lines, `budget_totals_from_lines` returns the distinct no-data outcome
(`ok none`), and any returned total always comes with a non-empty
category list, so a zero total is never conflated with no data. -/
theorem c4_no_data (lines : List (List Char)) :
    ((∀ ln ∈ lines, searchBudget ln = none) →
      budget_totals_from_lines lines = .ok none) ∧
    (∀ t cats, budget_totals_from_lines lines = .ok (some (t, cats)) → cats ≠ []) := by
  constructor
  · intro h
    simp [budget_totals_from_lines, collectCats_of_none lines h]
  · intro t cats h
    rw [budget_totals_from_lines] at h
    cases hc : collectCats lines with
    | error e => rw [hc] at h; cases h
    | ok cs =>
      rw [hc] at h
      by_cases he : cs.isEmpty
      · simp [he] at h
      · simp [he] at h
        cases hl : cs with
        | nil => rw [hl] at he; exact absurd rfl he
        | cons a b =>
          rw [← h.2, hl]
          simp

theorem c4_no_data_witness :
    budget_totals_from_lines [(("hello world").data)] = .ok none :=
  (c4_no_data [(("hello world").data)]).1 (by decide)

/-- Claim C5: on the text "Accommodation: ₹5000\nFood: ₹2000", budget
extraction followed by totals parsing yields exactly two categories with
total 7000; and in general the returned total is the sum of all matched
amounts and one entry is kept per matching line, so repeated category
names are not deduplicated. -/
theorem c5_budget_totals :
    (budget_totals_from_lines
        (extract_budget_lines (("Accommodation: ₹5000\nFood: ₹2000").data)) =
      .ok (some (7000, [((("Accommodation").data), 5000), ((("Food").data), 2000)]))) ∧
    (∀ lines t cats, budget_totals_from_lines lines = .ok (some (t, cats)) →
      t = (cats.map Prod.snd).sum ∧
      cats.length = (lines.filter (fun ln => (searchBudget ln).isSome)).length) := by
  constructor
  · rfl
  · intro lines t cats h
    rw [budget_totals_from_lines] at h
    cases hc : collectCats lines with
    | error e => rw [hc] at h; cases h
    | ok cs =>
      rw [hc] at h
      by_cases he : cs.isEmpty
      · simp [he] at h
      · simp [he] at h
        obtain ⟨ht, hcats⟩ := h
        subst hcats
        exact ⟨ht.symm, collectCats_length lines cs hc⟩

theorem c5_budget_totals_witness :
    (12 : Nat) = (([((("Food").data), (5 : Nat)), ((("Food").data), 7)]).map Prod.snd).sum ∧
    ([((("Food").data), (5 : Nat)), ((("Food").data), 7)]).length =
      (([(("Food: 5").data), (("Food: 7").data)]).filter
        (fun ln => (searchBudget ln).isSome)).length :=
  c5_budget_totals.2 [(("Food: 5").data), (("Food: 7").data)] 12
    [((("Food").data), 5), ((("Food").data), 7)] (by rfl)

/-- Claim C6: `extract_budget_lines` returns exactly the lines of the
text that case-insensitively contain one of the tokens "budget", "cost",
the rupee sign, the dollar sign, "INR", "USD" (the `budgetHit`
predicate), in document order, truncated to the first 20 such lines. -/
theorem c6_extract_budget (md : List Char) :
    extract_budget_lines md = ((pySplitlines md).filter budgetHit).take 20 ∧
    (extract_budget_lines md).Sublist (pySplitlines md) ∧
    (extract_budget_lines md).length ≤ 20 ∧
    ∀ ln ∈ extract_budget_lines md, budgetHit ln = true := by
  refine ⟨?_, ?_, ?_, ?_⟩
  · rw [extract_budget_lines, budgetHits_eq_filter]
  · rw [extract_budget_lines, budgetHits_eq_filter]
    exact (List.take_sublist _ _).trans (List.filter_sublist _)
  · rw [extract_budget_lines]
    exact List.length_take_le _ _
  · intro ln h
    rw [extract_budget_lines, budgetHits_eq_filter] at h
    exact (List.mem_filter.mp (List.mem_of_mem_take h)).2

theorem c6_extract_budget_witness :
    budgetHit (("cost: 5").data) = true :=
  (c6_extract_budget (("cost: 5").data)).2.2.2 (("cost: 5").data) (by decide)

/-- Claim C9 counterexample: the line "x: ," is matched by the
category/amount regex with amount group ",", and the comma-stripped
amount is empty, so the Python code raises ValueError inside
`budget_totals_from_lines` instead of terminating without raising. -/
theorem c9_comma_cex :
    searchBudget (("x: ,").data) = some ((("x").data), ((",").data)) ∧
    budget_totals_from_lines [(("x: ,").data)] =
      .error (.valueError (("could not convert string to float").data)) :=
  ⟨rfl, rfl⟩

/-- Claim C9 (amended): `budget_totals_from_lines` terminates without
raising provided every matched amount group contains at least one digit;
a matched group consisting only of commas makes the float conversion
raise. -/
theorem c9_no_raise_amended (lines : List (List Char))
    (h : ∀ ln ∈ lines, lineAmountSafe ln = true) :
    ∃ r, budget_totals_from_lines lines = .ok r := by
  obtain ⟨cs, hcs⟩ := collectCats_safe lines h
  by_cases he : cs.isEmpty
  · exact ⟨none, by simp [budget_totals_from_lines, hcs, he]⟩
  · exact ⟨some ((cs.map Prod.snd).sum, cs), by simp [budget_totals_from_lines, hcs, he]⟩

theorem c9_no_raise_amended_witness :
    ∃ r, budget_totals_from_lines [(("a: 1").data)] = .ok r :=
  c9_no_raise_amended [(("a: 1").data)] (by decide)

/-- Claim C1: with the fixed disallow-list, a non-empty override resolves
to its stripped value unless that stripped value is decommissioned, in
which case the static default is returned; when override and config are
both empty the static default is returned. -/
theorem c1_resolve_priority (envM cfgM : Option (List Char)) :
    (∀ s, envM = some s → s ≠ [] →
      resolve_groq_model envM cfgM =
        if pyStrip s ∈ DECOMMISSIONED then GROQ_DEFAULT else pyStrip s) ∧
    ((envM = none ∨ envM = some []) → (cfgM = none ∨ cfgM = some []) →
      resolve_groq_model envM cfgM = GROQ_DEFAULT) := by
  constructor
  · intro s hs hne
    subst hs
    have he : s.isEmpty = false := by
      cases s with
      | nil => exact absurd rfl hne
      | cons a t => rfl
    simp [resolve_groq_model, pyOrStr, he]
  · intro h1 h2
    have e2 : pyOrStr cfgM GROQ_DEFAULT = GROQ_DEFAULT := by
      rcases h2 with h | h <;> subst h <;> rfl
    have e1 : pyOrStr envM (pyOrStr cfgM GROQ_DEFAULT) = GROQ_DEFAULT := by
      rcases h1 with h | h <;> subst h <;> exact e2
    rw [resolve_groq_model, e1]
    decide

theorem c1_resolve_priority_witness :
    resolve_groq_model (some ((" deepseek-r1-distill-llama-70b ").data))
      (some (("config-model").data)) = GROQ_DEFAULT ∧
    resolve_groq_model none none = GROQ_DEFAULT := by
  constructor
  · have h := (c1_resolve_priority
      (some ((" deepseek-r1-distill-llama-70b ").data))
      (some (("config-model").data))).1
      ((" deepseek-r1-distill-llama-70b ").data) rfl (by decide)
    rw [h]
    decide
  · exact (c1_resolve_priority none none).2 (Or.inl rfl) (Or.inl rfl)

/-- Claim C2 counterexample: with GROQ_API_KEY set to the empty string
(so not unset), `load_llm` for provider groq still fails with the
missing-key configuration error, refuting the "if and only if ... unset"
form of the claim. -/
theorem c2_key_empty_cex :
    (EnvVars.mk (some []) none none none).GROQ_API_KEY ≠ none ∧
    load_llm (("groq").data) (EnvVars.mk (some []) none none none) none none =
      .error (.runtimeError (("GROQ_API_KEY is not set").data)) :=
  ⟨by decide, rfl⟩

/-- Claim C2 (amended): `load_llm` with provider groq fails with the
configuration error exactly when GROQ_API_KEY is unset or empty, and
with provider openai exactly when OPENAI_API_KEY is unset or empty; on
success the key carried by the handle is exactly the environment value,
never a substituted default. -/
theorem c2_key_check_amended (env : EnvVars) (cfgG cfgO : Option (List Char)) :
    ((∃ e, load_llm (("groq").data) env cfgG cfgO = .error (.runtimeError e)) ↔
      (env.GROQ_API_KEY = none ∨ env.GROQ_API_KEY = some [])) ∧
    ((∃ e, load_llm (("openai").data) env cfgG cfgO = .error (.runtimeError e)) ↔
      (env.OPENAI_API_KEY = none ∨ env.OPENAI_API_KEY = some [])) ∧
    (∀ m k t, load_llm (("groq").data) env cfgG cfgO = .ok (.chatGroq m k t) →
      env.GROQ_API_KEY = some k) ∧
    (∀ m k t, load_llm (("openai").data) env cfgG cfgO = .ok (.chatOpenAI m k t) →
      env.OPENAI_API_KEY = some k) := by
  obtain ⟨gk, okey, gm, om⟩ := env
  have hne : (("openai").data) ≠ (("groq").data) := by decide
  refine ⟨?_, ?_, ?_, ?_⟩
  · rcases gk with _ | k
    · simp [load_llm]
    · rcases k with _ | ⟨c, cs⟩ <;> simp [load_llm]
  · rcases okey with _ | k
    · simp [load_llm, hne]
    · rcases k with _ | ⟨c, cs⟩ <;> simp [load_llm, hne]
  · intro m k t h
    rcases gk with _ | k'
    · simp [load_llm] at h
    · rcases k' with _ | ⟨c, cs⟩
      · simp [load_llm] at h
      · simp [load_llm] at h
        simp [h.2.1]
  · intro m k t h
    rcases okey with _ | k'
    · simp [load_llm, hne] at h
    · rcases k' with _ | ⟨c, cs⟩
      · simp [load_llm, hne] at h
      · simp [load_llm, hne] at h
        simp [h.2.1]

theorem c2_key_check_amended_witness :
    ∃ e, load_llm (("groq").data) (EnvVars.mk none none none none) none none =
      .error (.runtimeError e) :=
  (c2_key_check_amended (EnvVars.mk none none none none) none none).1.mpr (Or.inl rfl)

/-- Claim C8: both groq and openai are accepted by the load_llm provider
dispatch (succeeding whenever the respective key is present and
non-empty), and any other provider tag fails with the unsupported
provider error whose message names the offending tag. -/
theorem c8_providers (env : EnvVars) (cfgG cfgO : Option (List Char)) (p : List Char) :
    (∀ k, env.GROQ_API_KEY = some k → k ≠ [] →
      load_llm (("groq").data) env cfgG cfgO =
        .ok (.chatGroq (resolve_groq_model env.GROQ_MODEL cfgG) k 60)) ∧
    (∀ k, env.OPENAI_API_KEY = some k → k ≠ [] →
      ∃ m, load_llm (("openai").data) env cfgG cfgO = .ok (.chatOpenAI m k 60)) ∧
    (p ≠ (("groq").data) → p ≠ (("openai").data) →
      load_llm p env cfgG cfgO =
        .error (.valueError ((("Unsupported model_provider: ").data) ++ p))) := by
  have hne : (("openai").data) ≠ (("groq").data) := by decide
  refine ⟨?_, ?_, ?_⟩
  · intro k hk hkne
    have he : k.isEmpty = false := by
      cases k with
      | nil => exact absurd rfl hkne
      | cons a t => rfl
    simp [load_llm, hk, he]
  · intro k hk hkne
    have he : k.isEmpty = false := by
      cases k with
      | nil => exact absurd rfl hkne
      | cons a t => rfl
    cases hOM : env.OPENAI_MODEL with
    | none =>
      cases cfgO with
      | none => exact ⟨(("gpt-4o-mini").data), by simp [load_llm, hne, hk, he, hOM]⟩
      | some c => exact ⟨c, by simp [load_llm, hne, hk, he, hOM]⟩
    | some m =>
      by_cases hm : m = []
      · subst hm
        cases cfgO with
        | none => exact ⟨(("gpt-4o-mini").data), by simp [load_llm, hne, hk, he, hOM]⟩
        | some c => exact ⟨c, by simp [load_llm, hne, hk, he, hOM]⟩
      · exact ⟨m, by simp [load_llm, hne, hk, he, hOM, hm]⟩
  · intro h1 h2
    simp [load_llm, h1, h2]

theorem c8_providers_witness :
    load_llm (("foo").data) (EnvVars.mk (some (("k1").data)) (some (("k2").data)) none none)
        none none =
      .error (.valueError ((("Unsupported model_provider: ").data) ++ (("foo").data))) ∧
    load_llm (("groq").data) (EnvVars.mk (some (("k1").data)) (some (("k2").data)) none none)
        none none =
      .ok (.chatGroq (resolve_groq_model none none) (("k1").data) 60) := by
  constructor
  · exact (c8_providers (EnvVars.mk (some (("k1").data)) (some (("k2").data)) none none)
      none none (("foo").data)).2.2 (by decide) (by decide)
  · exact (c8_providers (EnvVars.mk (some (("k1").data)) (some (("k2").data)) none none)
      none none (("foo").data)).1 (("k1").data) rfl (by decide)

theorem dayScanF_no_headers :
    ∀ (f : Nat) (cs : List Char), (dayScanF f cs).2 = [] → (dayScanF f cs).1 = [cs] := by
  intro f
  induction f with
  | zero =>
    intro cs h
    cases cs with
    | nil => rfl
    | cons c r => rfl
  | succ f ih =>
    intro cs h
    cases cs with
    | nil => rfl
    | cons c r =>
      simp only [dayScanF] at h ⊢
      cases hm : matchDayAt (c :: r) with
      | some pr =>
        obtain ⟨hdr, after⟩ := pr
        rw [hm] at h
        simp at h
      | none =>
        rw [hm] at h
        dsimp only at h ⊢
        have h3 : (dayScanF f r).2 = [] := by
          cases hr : dayScanF f r with
          | mk ps hs =>
            rw [hr] at h
            cases ps with
            | nil => simpa using h
            | cons p ps2 => simpa using h
        have hfull : dayScanF f r = ([r], []) := by
          rw [Prod.ext_iff]
          exact ⟨ih r h3, h3⟩
        rw [hfull]

/-- Claim C3 counterexample: on the claimed text the day regex requires
a preceding newline, so the leading "Day 1:" header at the very start of
the document is not recognised; only one section, headed "Day 2:", is
produced instead of the claimed two. -/
theorem c3_day_split_cex :
    dayPlanSections (("Day 1: Arrival\n...\nDay 2: City tour\n...").data) =
      some [((("Day 2:").data), ((" City tour\n...").data))] := by
  rfl

/-- Claim C3 (amended): day headers are recognised only when preceded by
a newline; on the text with a leading newline the splitting yields
exactly the two sections headed "Day 1:" and "Day 2:" in order, each
paired with the text following its header; and on text with no
recognised header the split is the single undivided document and the
notice outcome (`none`) is produced. -/
theorem c3_day_split_amended :
    (dayPlanSections (("\nDay 1: Arrival\n...\nDay 2: City tour\n...").data) =
      some [((("Day 1:").data), ((" Arrival\n...").data)),
            ((("Day 2:").data), ((" City tour\n...").data))]) ∧
    (∀ md : List Char, dayHeadersData md = [] →
      daysSplitData md = [md] ∧ dayPlanSections md = none) := by
  constructor
  · rfl
  · intro md h
    have h1 : daysSplitData md = [md] := dayScanF_no_headers md.length md h
    refine ⟨h1, ?_⟩
    simp [dayPlanSections, h]

theorem c3_day_split_amended_witness :
    daysSplitData (("no headers here").data) = [(("no headers here").data)] ∧
    dayPlanSections (("no headers here").data) = none :=
  c3_day_split_amended.2 (("no headers here").data) (by decide)

theorem listIsEmpty_false {α : Type _} {l : List α} (h : l ≠ []) : l.isEmpty = false := by
  cases l with
  | nil => exact absurd rfl h
  | cons a b => rfl

theorem dropWhileHeadFalse {p : Char → Bool} :
    ∀ (l : List Char) (x : Char) (xs : List Char), l.dropWhile p = x :: xs → p x = false := by
  intro l
  induction l with
  | nil => intro x xs h; cases h
  | cons c t ih =>
    intro x xs h
    by_cases hc : p c = true
    · rw [List.dropWhile_cons_of_pos hc] at h
      exact ih x xs h
    · rw [List.dropWhile_cons_of_neg hc] at h
      cases h
      simpa using hc

theorem dropWhileNeNil {p : Char → Bool} :
    ∀ (l : List Char) (x : Char), x ∈ l → p x = false → l.dropWhile p ≠ [] := by
  intro l
  induction l with
  | nil => intro x hx; cases hx
  | cons c t ih =>
    intro x hx hpx
    by_cases hc : p c = true
    · rw [List.dropWhile_cons_of_pos hc]
      rcases List.mem_cons.mp hx with h | h
      · exfalso
        rw [h] at hpx
        rw [hpx] at hc
        cases hc
      · exact ih x h hpx
    · rw [List.dropWhile_cons_of_neg hc]
      exact List.cons_ne_nil c t

theorem matchWeather_not_blank (w : List Char) (h : matchWeatherStart w = true) :
    (pyStrip w).isEmpty = false := by
  have h1 : w.dropWhile pyIsSpace ≠ [] := by
    intro he
    simp only [matchWeatherStart, he] at h
    exact absurd h (by decide)
  obtain ⟨x, xs, hxx⟩ : ∃ x xs, w.dropWhile pyIsSpace = x :: xs := by
    cases hc : w.dropWhile pyIsSpace with
    | nil => exact absurd hc h1
    | cons a b => exact ⟨a, b, rfl⟩
  have hpx : pyIsSpace x = false := dropWhileHeadFalse w x xs hxx
  have h2 : ((x :: xs).reverse).dropWhile pyIsSpace ≠ [] :=
    dropWhileNeNil ((x :: xs).reverse) x (by simp) hpx
  rw [pyStrip, hxx]
  apply listIsEmpty_false
  intro he
  rw [List.reverse_eq_nil_iff] at he
  exact h2 he

theorem weatherScan_true (post : List (List Char)) :
    ∀ acc, weatherScan true acc post = acc ++ joinNL (takeThroughBlank post) := by
  induction post with
  | nil => intro acc; simp [weatherScan, takeThroughBlank, joinNL]
  | cons ln rest ih =>
    intro acc
    by_cases hb : (pyStrip ln).isEmpty
    · simp [weatherScan, hb, takeThroughBlank, joinNL]
    · simp [weatherScan, hb, takeThroughBlank, joinNL, ih]

theorem weatherScan_skip (pre : List (List Char))
    (h : ∀ ln ∈ pre, matchWeatherStart ln = false) :
    ∀ rest, weatherScan false [] (pre ++ rest) = weatherScan false [] rest := by
  induction pre with
  | nil => intro rest; rfl
  | cons ln pre2 ih =>
    intro rest
    have h1 : matchWeatherStart ln = false := h ln (by simp)
    have h2 : ∀ l ∈ pre2, matchWeatherStart l = false := fun l hl => h l (by simp [hl])
    simp only [List.cons_append, weatherScan, h1, Bool.or_false, Bool.false_and,
      Bool.false_eq_true, if_false]
    exact ih h2 rest

/-- Claim C7: on "Weather: sunny, 28°C\n\nNext section" the Weather tab
shows exactly the line "Weather: sunny, 28°C"; in general, after any
prefix of non-matching lines, the accumulated chunk is the contiguous
block from the first line matching the weather pattern through the first
blank line; and on text with no matching line the not-found outcome
(`none`) is reported. -/
theorem c7_weather :
    (weatherTab (("Weather: sunny, 28°C\n\nNext section").data) =
      some (("Weather: sunny, 28°C").data)) ∧
    (∀ pre w post, (∀ ln ∈ pre, matchWeatherStart ln = false) →
      matchWeatherStart w = true →
      weatherScan false [] (pre ++ w :: post) = joinNL (w :: takeThroughBlank post)) ∧
    (∀ md : List Char, (∀ ln ∈ pySplitlines md, matchWeatherStart ln = false) →
      weatherTab md = none) := by
  refine ⟨by rfl, ?_, ?_⟩
  · intro pre w post hpre hw
    rw [weatherScan_skip pre hpre (w :: post)]
    have hb := matchWeather_not_blank w hw
    simp only [weatherScan, hw, Bool.or_true, Bool.true_and, hb, if_true,
      Bool.false_eq_true, if_false]
    rw [weatherScan_true post]
    simp [joinNL]
  · intro md h
    have h0 : weatherScan false [] (pySplitlines md) = weatherScan false [] [] := by
      have h1 := weatherScan_skip (pySplitlines md) h []
      simpa using h1
    simp [weatherTab, weatherChunkRaw, h0, weatherScan, pyStrip]

theorem c7_weather_witness :
    weatherScan false [] [(("intro line").data), (("Weather: hot").data), (("more").data)] =
      joinNL [(("Weather: hot").data), (("more").data)] ∧
    weatherTab (("just text").data) = none := by
  constructor
  · exact (c7_weather).2.1 [(("intro line").data)] (("Weather: hot").data)
      [(("more").data)] (by decide) (by decide)
  · exact (c7_weather).2.2 (("just text").data) (by decide)

/-- Claim C10 counterexample: a status-200 response whose body does not
parse as a JSON object makes the json access of the code raise inside the try
block, so `call_backend` returns failure with the exception message even
though the HTTP status is 200, refuting "success exactly when the status
is 200". -/
theorem c10_status200_cex :
    call_backend (.http 200 none (("Expecting value: line 1 column 1 (char 0)").data)
        (("not json").data)) =
      (false, (("Expecting value: line 1 column 1 (char 0)").data)) :=
  rfl

/-- Claim C10 (amended): `call_backend` is total (never raises); it
returns success exactly when the status is 200 and the body yields a
JSON object, with the answer field (default empty) as payload; a 200
response with an unparseable body yields failure with the exception
message; any non-200 status yields failure with the response text
verbatim; a transport exception yields failure with its message. -/
theorem c10_call_backend_amended (r : BackendResponse) :
    ((call_backend r).1 = true ↔ ∃ j e t, r = .http 200 (some j) e t) ∧
    (∀ m, r = .exn m → call_backend r = (false, m)) ∧
    (∀ st j e t, r = .http st j e t → st ≠ 200 → call_backend r = (false, t)) ∧
    (∀ j e t, r = .http 200 (some j) e t → call_backend r = (true, j.getD [])) ∧
    (∀ e t, r = .http 200 none e t → call_backend r = (false, e)) := by
  cases r with
  | exn m =>
    refine ⟨?_, ?_, ?_, ?_, ?_⟩
    · simp [call_backend]
    · intro m2 hm
      cases hm
      rfl
    · intro st j e t hm
      cases hm
    · intro j e t hm
      cases hm
    · intro e t hm
      cases hm
  | http st j e t =>
    refine ⟨?_, ?_, ?_, ?_, ?_⟩
    · by_cases hst : st = 200
      · subst hst
        cases j with
        | none => simp [call_backend]
        | some a =>
          cases a with
          | none => simp [call_backend]
          | some v => simp [call_backend]
      · simp [call_backend, hst]
    · intro m hm
      cases hm
    · intro st2 j2 e2 t2 hm hne
      cases hm
      simp [call_backend, hne]
    · intro j2 e2 t2 hm
      cases hm
      cases j2 with
      | none => simp [call_backend]
      | some v => simp [call_backend]
    · intro e2 t2 hm
      cases hm
      simp [call_backend]

theorem c10_call_backend_amended_witness :
    call_backend (.exn (("connection refused").data)) =
      (false, (("connection refused").data)) :=
  (c10_call_backend_amended (.exn (("connection refused").data))).2.1
    (("connection refused").data) rfl

end TripPlanner
